import Mathlib

/-!
Verification of the PromoRemnaBot campaign-tag reconciliation and bulk
provisioning/retirement routines (src/remnawave_service.py, src/config.py,
src/bot_handlers.py), shallowly embedded over `List Char` strings.

Python strings are modelled as `List Char`; `str.split(sep)`, `sep.join`,
and `str.startswith` are embedded directly.  Remote credential records are
records with the fields the code reads (`username`, `status`,
`usedTrafficBytes`, `trafficLimitBytes`, `uuid`); byte counters are `Nat`
(they are nonnegative byte counts).  External calls are modelled by explicit
behaviour parameters and call traces.
-/

namespace PromoBot

/-- Python strings, modelled as lists of characters. -/
abbrev Str := List Char

/-- Auxiliary loop of Python `str.split(sep)`: `acc` is the reversed current
segment. -/
def splitOnAux (sep : Char) : Str → Str → List Str
  | [], acc => [acc.reverse]
  | c :: cs, acc =>
    if c = sep then acc.reverse :: splitOnAux sep cs []
    else splitOnAux sep cs (c :: acc)

/-- Embedding of Python `s.split(sep)` (single-character separator). -/
def pySplit (s : Str) (sep : Char) : List Str :=
  splitOnAux sep s []

/-- Embedding of Python `sep.join(parts)` (single-character separator). -/
def pyJoin (sep : Char) : List Str → Str
  | [] => []
  | [p] => p
  | p :: q :: ps => p ++ sep :: pyJoin sep (q :: ps)

/-- Embedding of Python `s.startswith(p)`. -/
def pyStartswith : Str → Str → Bool
  | _, [] => true
  | [], _ :: _ => false
  | c :: cs, p :: ps => c = p && pyStartswith cs ps

/-- Default value of `Config.DEFAULT_UUID_PREFIX` (config.py line 62):
the leading part of every generated promo username. -/
def UUID_NAME_START : Str := "promo-".data

/-- Default value of `Config.MAX_SUBSCRIPTIONS_PER_REQUEST` (config.py
line 66). -/
def MAX_SUBSCRIPTIONS_PER_REQUEST : Nat := 100

/-- The character set of `_validate_tag` (remnawave_service.py line 56):
`set(string.ascii_letters + string.digits + '_-')`. -/
def allowedChars : Str :=
  "abcdefghijklmnopqrstuvwxyzABCDEFGHIJKLMNOPQRSTUVWXYZ0123456789_-".data

/-- Embedding of `RemnawaveService._validate_tag` (remnawave_service.py
lines 51-57): nonempty and every character drawn from `allowedChars`. -/
def validateTag (tag : Str) : Bool :=
  !tag.isEmpty && tag.all fun c => allowedChars.contains c

/-- The character set of `_generate_random_suffix` (remnawave_service.py
line 30): `string.ascii_lowercase + string.digits`. -/
def suffixChars : Str :=
  "abcdefghijklmnopqrstuvwxyz0123456789".data

/-- A possible output of `_generate_random_suffix()`: 8 characters, each
lowercase-alphanumeric. -/
def isValidSuffix (s : Str) : Bool :=
  s.length == 8 && s.all fun c => suffixChars.contains c

/-- Embedding of the username construction of `create_promo_users`
(remnawave_service.py line 91):
username is DEFAULT_UUID_PREFIX, then the random suffix, then a hyphen,
then the tag. -/
def generateUsername (suffix tag : Str) : Str :=
  UUID_NAME_START ++ suffix ++ '-' :: tag

/-- Embedding of the tag-recovery pattern shared by `get_tags_with_stats`
(lines 437-440), `delete_used_subscriptions` (lines 495-498) and
`get_tag_preview_stats` (lines 548-551): if the username starts with the
configured leading part and splits on hyphens into at least 3 segments,
the tag is the hyphen-join of all segments from index 2 onward; otherwise
the record is skipped (`none`). -/
def extractTag (username : Str) : Option Str :=
  if pyStartswith username UUID_NAME_START then
    let parts := pySplit username '-'
    if 3 ≤ parts.length then some (pyJoin '-' (parts.drop 2)) else none
  else none

/- ### Codec lemmas -/

theorem splitOnAux_ne_nil (sep : Char) (s : Str) : ∀ acc, splitOnAux sep s acc ≠ [] := by
  induction s with
  | nil => intro acc; simp [splitOnAux]
  | cons c cs ih =>
    intro acc
    rw [splitOnAux]
    by_cases hc : c = sep
    · simp [hc]
    · simp only [if_neg hc]
      exact ih _

theorem splitOnAux_append_of_not_mem (sep : Char) {l : Str} (h : sep ∉ l) :
    ∀ rest acc, splitOnAux sep (l ++ rest) acc = splitOnAux sep rest (l.reverse ++ acc) := by
  induction l with
  | nil => intro rest acc; simp
  | cons c cs ih =>
    intro rest acc
    have hc : ¬ c = sep := fun hh => h (hh ▸ List.mem_cons_self c cs)
    rw [List.cons_append, splitOnAux, if_neg hc,
      ih (fun hm => h (List.mem_cons_of_mem _ hm)) rest (c :: acc)]
    simp

theorem pyJoin_splitOnAux (sep : Char) (s : Str) :
    ∀ acc, pyJoin sep (splitOnAux sep s acc) = acc.reverse ++ s := by
  induction s with
  | nil => intro acc; simp [splitOnAux, pyJoin]
  | cons c cs ih =>
    intro acc
    rw [splitOnAux]
    by_cases hc : c = sep
    · rw [if_pos hc]
      obtain ⟨q, ps, hqs⟩ := List.exists_cons_of_ne_nil (splitOnAux_ne_nil sep cs [])
      rw [hqs, pyJoin, ← hqs, ih []]
      simp [hc]
    · rw [if_neg hc, ih (c :: acc)]
      simp

/-- Joining a split recovers the original string (Python law
`sep.join(s.split(sep)) == s`). -/
theorem pyJoin_pySplit (sep : Char) (s : Str) : pyJoin sep (pySplit s sep) = s := by
  simpa using pyJoin_splitOnAux sep s []

theorem pyStartswith_append (p r : Str) : pyStartswith (p ++ r) p = true := by
  induction p with
  | nil => cases r <;> rfl
  | cons c cs ih => simp [pyStartswith, ih]

theorem pySplit_generateUsername (suffix tag : Str) (hs : '-' ∉ suffix) :
    pySplit (generateUsername suffix tag) '-' =
      "promo".data :: suffix :: pySplit tag '-' := by
  have hpre : (UUID_NAME_START : Str) = "promo".data ++ '-' :: [] := by decide
  have hpromo : '-' ∉ "promo".data := by decide
  have hgoal : generateUsername suffix tag =
      "promo".data ++ ('-' :: (suffix ++ '-' :: tag)) := by
    rw [generateUsername, hpre]
    simp [List.append_assoc]
  rw [pySplit, hgoal]
  rw [splitOnAux_append_of_not_mem '-' hpromo]
  rw [splitOnAux, if_pos rfl]
  rw [splitOnAux_append_of_not_mem '-' hs]
  rw [splitOnAux, if_pos rfl]
  simp [pySplit]

/- ### Tag validation (claim C8) -/

/-- Specification-side character class: ASCII uppercase letter, lowercase
letter, digit, underscore (code 95) or hyphen (code 45), phrased by
character code. -/
def isTagChar (c : Char) : Prop :=
  (65 ≤ c.toNat ∧ c.toNat ≤ 90) ∨ (97 ≤ c.toNat ∧ c.toNat ≤ 122) ∨
    (48 ≤ c.toNat ∧ c.toNat ≤ 57) ∨ c.toNat = 95 ∨ c.toNat = 45

/-- The same character class on raw codes, as a boolean. -/
def tagCharCode (n : Nat) : Bool :=
  (decide (65 ≤ n) && decide (n ≤ 90)) || (decide (97 ≤ n) && decide (n ≤ 122)) ||
    (decide (48 ≤ n) && decide (n ≤ 57)) || n == 95 || n == 45

theorem char_toNat_inj {a b : Char} (h : a.toNat = b.toNat) : a = b := by
  have hv : a.val = b.val := by
    unfold Char.toNat at h
    exact UInt32.toNat.inj h
  exact Char.eq_of_val_eq hv

theorem mem_allowedChars_iff (c : Char) : c ∈ allowedChars ↔ isTagChar c := by
  constructor
  · intro h
    have key : ∀ n ∈ allowedChars.map Char.toNat, tagCharCode n = true := by decide
    have hcode := key c.toNat (List.mem_map_of_mem Char.toNat h)
    simp only [tagCharCode, Bool.or_eq_true, Bool.and_eq_true, decide_eq_true_eq,
      beq_iff_eq] at hcode
    unfold isTagChar
    tauto
  · intro h
    have hcode : tagCharCode c.toNat = true := by
      simp only [tagCharCode, Bool.or_eq_true, Bool.and_eq_true, decide_eq_true_eq,
        beq_iff_eq]
      unfold isTagChar at h
      tauto
    have hlt : c.toNat < 128 := by
      rcases h with ⟨h1, h2⟩ | ⟨h1, h2⟩ | ⟨h1, h2⟩ | h1 | h1 <;> omega
    have key : ∀ n : Nat, n < 128 → tagCharCode n = true →
        n ∈ allowedChars.map Char.toNat := by decide
    obtain ⟨a, ha, hae⟩ := List.mem_map.mp (key c.toNat hlt hcode)
    exact (char_toNat_inj hae) ▸ ha

/-- C8: a string passes `_validate_tag` iff it is nonempty and every
character is an ASCII letter, a digit, an underscore or a hyphen; the
empty string and any string with a character outside that set fail. -/
theorem validate_tag_iff (tag : Str) :
    validateTag tag = true ↔ tag ≠ [] ∧ ∀ c ∈ tag, isTagChar c := by
  unfold validateTag
  rw [Bool.and_eq_true]
  constructor
  · rintro ⟨h1, h2⟩
    refine ⟨?_, ?_⟩
    · intro hnil
      subst hnil
      simp at h1
    · intro c hc
      have hcont := (List.all_eq_true.mp h2) c hc
      exact (mem_allowedChars_iff c).mp (by simpa using hcont)
  · rintro ⟨h1, h2⟩
    refine ⟨by simpa using h1, List.all_eq_true.mpr ?_⟩
    intro c hc
    simpa using (mem_allowedChars_iff c).mpr (h2 c hc)

/- ### Round-trip law (claim C2) -/

/-- C2: for every tag accepted by `_validate_tag` (including tags that
contain hyphens) and every 8-character lowercase-alphanumeric random
suffix, extracting the tag back out of the generated username
`DEFAULT_UUID_PREFIX + suffix + "-" + tag` (split on hyphens, join all
segments from index 2 onward) recovers exactly the original tag. -/
theorem extract_generate_roundtrip (tag suffix : Str)
    (ht : validateTag tag = true) (hs : isValidSuffix suffix = true) :
    extractTag (generateUsername suffix tag) = some tag := by
  have hnosep : '-' ∉ suffix := by
    intro hm
    unfold isValidSuffix at hs
    rw [Bool.and_eq_true] at hs
    have hcont := (List.all_eq_true.mp hs.2) _ hm
    have hmem : '-' ∈ suffixChars := by simpa using hcont
    exact absurd hmem (by decide)
  have hstart : pyStartswith (generateUsername suffix tag) UUID_NAME_START = true := by
    have hrw : generateUsername suffix tag = UUID_NAME_START ++ (suffix ++ '-' :: tag) := by
      simp [generateUsername]
    rw [hrw]
    exact pyStartswith_append _ _
  have hsplit := pySplit_generateUsername suffix tag hnosep
  have hlen : 3 ≤ (pySplit (generateUsername suffix tag) '-').length := by
    rw [hsplit]
    have hpos : 0 < (pySplit tag '-').length :=
      List.length_pos.mpr (splitOnAux_ne_nil '-' tag [])
    simp only [List.length_cons]
    omega
  simp only [extractTag, hstart, if_true, if_pos hlen, hsplit]
  simp [pyJoin_pySplit]
  exact splitOnAux_ne_nil '-' tag []

/-- Concrete witness for the round-trip law: a hyphenated tag survives the
encode/decode cycle. -/
theorem extract_generate_roundtrip_witness :
    extractTag (generateUsername "ab12cd34".data "black-friday-2024".data) =
      some "black-friday-2024".data :=
  extract_generate_roundtrip "black-friday-2024".data "ab12cd34".data
    (by decide) (by decide)

/- ### Remote credential records and classification (claims C1, C3, C5, C9) -/

/-- A remote credential record, with exactly the fields the scans read
(`getattr(user, 'username'/'status'/'usedTrafficBytes'/'trafficLimitBytes'/'uuid')`).
Byte counters are `Nat`: they are nonnegative byte counts. -/
structure User where
  username : Str
  status : Str
  usedTrafficBytes : Nat
  trafficLimitBytes : Nat
  uuid : Option Str
deriving DecidableEq

/-- The status literal `'ACTIVE'` the scans compare against. -/
def activeStatus : Str := "ACTIVE".data

/-- Embedding of the used-credential test of `delete_used_subscriptions`
(remnawave_service.py lines 510-511) and `get_tag_preview_stats` (lines
562-563): `status != 'ACTIVE' or (traffic_limit > 0 and used_traffic >=
traffic_limit)`. -/
def isUsed (u : User) : Bool :=
  !(u.status == activeStatus) ||
    (decide (0 < u.trafficLimitBytes) && decide (u.trafficLimitBytes ≤ u.usedTrafficBytes))

/-- Embedding of the active-credential test of `get_tags_with_stats`
(remnawave_service.py lines 458-462): `status == 'ACTIVE' and
(traffic_limit == 0 or used_traffic < traffic_limit)`. -/
def statsIsActive (u : User) : Bool :=
  (u.status == activeStatus) &&
    (decide (u.trafficLimitBytes = 0) || decide (u.usedTrafficBytes < u.trafficLimitBytes))

/-- The two classification expressions in the source agree: a record is
counted active by the all-tags scan exactly when the preview/retirement
scans do not classify it as used. -/
theorem statsIsActive_eq_not_isUsed (u : User) : statsIsActive u = !isUsed u := by
  unfold statsIsActive isUsed
  cases hst : u.status == activeStatus
  · simp
  · simp only [Bool.true_and, Bool.not_true, Bool.false_or, Bool.not_false]
    rw [Bool.eq_iff_iff]
    simp only [Bool.or_eq_true, decide_eq_true_eq, Bool.not_eq_true',
      Bool.and_eq_false_iff, decide_eq_false_iff_not]
    omega

/-- C1: classification yields used iff the status is not active, or the
traffic quota is positive and the consumed traffic has reached it.  In
addition: the all-tags scan's active test is the exact negation of the
used test, and an active-status record with quota 0 (unlimited) is never
classified used, whatever its consumed traffic. -/
theorem classify_used_iff (u : User) :
    (isUsed u = true ↔
      (u.status ≠ activeStatus ∨
        (0 < u.trafficLimitBytes ∧ u.trafficLimitBytes ≤ u.usedTrafficBytes)))
    ∧ statsIsActive u = !isUsed u
    ∧ isUsed { u with status := activeStatus, trafficLimitBytes := 0 } = false := by
  refine ⟨?_, statsIsActive_eq_not_isUsed u, by simp [isUsed]⟩
  unfold isUsed
  simp only [Bool.or_eq_true, Bool.not_eq_true', beq_eq_false_iff_ne, ne_eq,
    Bool.and_eq_true, decide_eq_true_eq]

/- ### Tag statistics scans (claims C3, C10) -/

/-- Per-tag counter triple (the `total`/`active`/`used` dict of the
source). -/
structure TagStats where
  total : Nat
  active : Nat
  used : Nat
deriving DecidableEq

/-- One record's contribution in `get_tags_with_stats` (remnawave_service.py
lines 450-464): `total` always increments, then either `active` or `used`
according to the active test. -/
def bumpStats (u : User) (s : TagStats) : TagStats :=
  if statsIsActive u then { s with total := s.total + 1, active := s.active + 1 }
  else { s with total := s.total + 1, used := s.used + 1 }

/-- Embedding of the Python dict update `tag_stats[tag]` in
`get_tags_with_stats`: initialize the entry to zeros on first sight (in
insertion order), then bump it. -/
def updateStats : List (Str × TagStats) → Str → User → List (Str × TagStats)
  | [], t, u => [(t, bumpStats u ⟨0, 0, 0⟩)]
  | (k, v) :: rest, t, u =>
    if k = t then (k, bumpStats u v) :: rest
    else (k, v) :: updateStats rest t u

/-- The grouping loop of `get_tags_with_stats` (remnawave_service.py lines
433-464) over a directory snapshot, accumulating the per-tag dict. -/
def tagStatsAux : List User → List (Str × TagStats) → List (Str × TagStats)
  | [], m => m
  | u :: us, m =>
    match extractTag u.username with
    | some t => tagStatsAux us (updateStats m t u)
    | none => tagStatsAux us m

/-- Embedding of `get_tags_with_stats` applied to a directory snapshot:
the per-tag statistics in insertion order (`list(tag_stats.values())`,
keyed here for lookup). -/
def getTagsWithStats (users : List User) : List (Str × TagStats) :=
  tagStatsAux users []

/-- Dict lookup in the association-list model. -/
def lookupTag : List (Str × TagStats) → Str → Option TagStats
  | [], _ => none
  | (k, v) :: rest, t => if k = t then some v else lookupTag rest t

/-- One record's contribution in `get_tag_preview_stats`
(remnawave_service.py lines 554-568): `total` always increments, then
`used` or `active` according to the used test. -/
def previewBump (u : User) (s : TagStats) : TagStats :=
  if isUsed u then { total := s.total + 1, active := s.active, used := s.used + 1 }
  else { total := s.total + 1, active := s.active + 1, used := s.used }

/-- The filtering loop of `get_tag_preview_stats` over a directory
snapshot. -/
def previewAux (tag : Str) : List User → TagStats → TagStats
  | [], s => s
  | u :: us, s =>
    match extractTag u.username with
    | some t => if t = tag then previewAux tag us (previewBump u s) else previewAux tag us s
    | none => previewAux tag us s

/-- Embedding of `get_tag_preview_stats` (remnawave_service.py lines
533-570) applied to a directory snapshot. -/
def getTagPreviewStats (users : List User) (tag : Str) : TagStats :=
  previewAux tag users ⟨0, 0, 0⟩

/-- Whether a record belongs to the campaign `tag` under the naming
convention (the `user_tag == tag` test after extraction). -/
def matchesTagB (u : User) (tag : Str) : Bool :=
  decide (extractTag u.username = some tag)

/-- Specification-side counters, as plain filters over the snapshot. -/
def taggedCount (users : List User) (tag : Str) : Nat :=
  (users.filter fun u => matchesTagB u tag).length

def usedCount (users : List User) (tag : Str) : Nat :=
  (users.filter fun u => matchesTagB u tag && isUsed u).length

def activeCount (users : List User) (tag : Str) : Nat :=
  (users.filter fun u => matchesTagB u tag && !isUsed u).length

theorem taggedCount_cons_of_not {u : User} {tag : Str} (hm : matchesTagB u tag = false)
    (us : List User) : taggedCount (u :: us) tag = taggedCount us tag := by
  simp [taggedCount, List.filter_cons, hm]

theorem activeCount_cons_of_not {u : User} {tag : Str} (hm : matchesTagB u tag = false)
    (us : List User) : activeCount (u :: us) tag = activeCount us tag := by
  simp [activeCount, List.filter_cons, hm]

theorem usedCount_cons_of_not {u : User} {tag : Str} (hm : matchesTagB u tag = false)
    (us : List User) : usedCount (u :: us) tag = usedCount us tag := by
  simp [usedCount, List.filter_cons, hm]

theorem previewAux_eq (tag : Str) : ∀ (users : List User) (s : TagStats),
    previewAux tag users s =
      ⟨s.total + taggedCount users tag, s.active + activeCount users tag,
        s.used + usedCount users tag⟩ := by
  intro users
  induction users with
  | nil =>
    intro s
    cases s
    simp [previewAux, taggedCount, activeCount, usedCount]
  | cons u us ih =>
    intro s
    cases hx : extractTag u.username with
    | none =>
      have hm : matchesTagB u tag = false := by simp [matchesTagB, hx]
      simp only [previewAux, hx]
      rw [ih, taggedCount_cons_of_not hm, activeCount_cons_of_not hm,
        usedCount_cons_of_not hm]
    | some t =>
      by_cases htag : t = tag
      · subst htag
        have hm : matchesTagB u t = true := by simp [matchesTagB, hx]
        simp only [previewAux, hx, if_pos rfl]
        rw [ih]
        cases hu : isUsed u <;>
          simp [previewBump, hu, taggedCount, activeCount, usedCount,
            List.filter_cons, hm, TagStats.mk.injEq] <;>
          omega
      · have hm : matchesTagB u tag = false := by
          simp only [matchesTagB, hx, decide_eq_false_iff_not]
          intro hcon
          exact htag (Option.some.inj hcon)
        simp only [previewAux, hx, if_neg htag]
        rw [ih, taggedCount_cons_of_not hm,
          activeCount_cons_of_not hm, usedCount_cons_of_not hm]

/-- The single-tag preview computes exactly the filter/length counters. -/
theorem getTagPreviewStats_eq (users : List User) (tag : Str) :
    getTagPreviewStats users tag =
      ⟨taggedCount users tag, activeCount users tag, usedCount users tag⟩ := by
  rw [getTagPreviewStats, previewAux_eq]
  simp

theorem lookupTag_updateStats_self (t : Str) (u : User) : ∀ m,
    lookupTag (updateStats m t u) t =
      some (bumpStats u ((lookupTag m t).getD ⟨0, 0, 0⟩)) := by
  intro m
  induction m with
  | nil => simp [updateStats, lookupTag]
  | cons kv rest ih =>
    obtain ⟨k, v⟩ := kv
    by_cases hk : k = t
    · subst hk
      simp [updateStats, lookupTag]
    · simp [updateStats, lookupTag, hk, ih]

theorem lookupTag_updateStats_ne {t tag : Str} (hne : tag ≠ t) (u : User) : ∀ m,
    lookupTag (updateStats m t u) tag = lookupTag m tag := by
  intro m
  induction m with
  | nil =>
    simp [updateStats, lookupTag, Ne.symm hne]
  | cons kv rest ih =>
    obtain ⟨k, v⟩ := kv
    by_cases hk : k = t
    · subst hk
      simp [updateStats, lookupTag, Ne.symm hne]
    · by_cases hktag : k = tag
      · subst hktag
        simp [updateStats, lookupTag, hk]
      · simp [updateStats, lookupTag, hk, hktag, ih]

/-- Invariant of the grouping loop of `get_tags_with_stats`: the entry for
any tag is the incoming entry plus the filter/length counters of the
remaining snapshot (absent iff never seen). -/
theorem tagStatsAux_lookup : ∀ (users : List User) (m : List (Str × TagStats)) (tag : Str),
    lookupTag (tagStatsAux users m) tag =
      match lookupTag m tag with
      | some s =>
          some ⟨s.total + taggedCount users tag, s.active + activeCount users tag,
            s.used + usedCount users tag⟩
      | none =>
          if taggedCount users tag = 0 then none
          else some ⟨taggedCount users tag, activeCount users tag, usedCount users tag⟩ := by
  intro users
  induction users with
  | nil =>
    intro m tag
    cases h0 : lookupTag m tag with
    | none => simp [tagStatsAux, h0, taggedCount]
    | some s =>
      cases s
      simp [tagStatsAux, h0, taggedCount, activeCount, usedCount]
  | cons u us ih =>
    intro m tag
    cases hx : extractTag u.username with
    | none =>
      have hm : matchesTagB u tag = false := by simp [matchesTagB, hx]
      simp only [tagStatsAux, hx]
      rw [ih, taggedCount_cons_of_not hm, activeCount_cons_of_not hm,
        usedCount_cons_of_not hm]
    | some t =>
      simp only [tagStatsAux, hx]
      rw [ih]
      by_cases htag : tag = t
      · subst htag
        have hm : matchesTagB u tag = true := by simp [matchesTagB, hx]
        rw [lookupTag_updateStats_self]
        have hst := statsIsActive_eq_not_isUsed u
        cases h0 : lookupTag m tag with
        | none =>
          have hnz : ¬ taggedCount (u :: us) tag = 0 := by
            simp [taggedCount, List.filter_cons, hm]
          rw [if_neg hnz]
          cases hu : isUsed u <;>
            simp [bumpStats, hst, hu, taggedCount, activeCount, usedCount,
              List.filter_cons, hm, TagStats.mk.injEq] <;>
            omega
        | some s =>
          cases hu : isUsed u <;>
            simp [bumpStats, hst, hu, taggedCount, activeCount, usedCount,
              List.filter_cons, hm, TagStats.mk.injEq] <;>
            omega
      · have hm : matchesTagB u tag = false := by
          simp only [matchesTagB, hx, decide_eq_false_iff_not]
          intro hcon
          exact htag (Option.some.inj hcon).symm
        rw [lookupTag_updateStats_ne htag, taggedCount_cons_of_not hm,
          activeCount_cons_of_not hm, usedCount_cons_of_not hm]

/-- The all-tags scan's entry for a tag, in closed form. -/
theorem getTagsWithStats_lookup (users : List User) (tag : Str) :
    lookupTag (getTagsWithStats users) tag =
      if taggedCount users tag = 0 then none
      else some ⟨taggedCount users tag, activeCount users tag, usedCount users tag⟩ := by
  have h := tagStatsAux_lookup users [] tag
  simpa [lookupTag] using h

/-- C3: the two scan implementations are equivalent: whenever a tag
appears in the full `get_tags_with_stats` result, its counter triple
equals the one `get_tag_preview_stats` computes from the same snapshot. -/
theorem tag_stats_agree_with_preview (users : List User) (tag : Str) (s : TagStats)
    (h : lookupTag (getTagsWithStats users) tag = some s) :
    s = getTagPreviewStats users tag := by
  rw [getTagsWithStats_lookup] at h
  by_cases h0 : taggedCount users tag = 0
  · rw [if_pos h0] at h
    exact absurd h (by simp)
  · rw [if_neg h0] at h
    rw [getTagPreviewStats_eq]
    exact (Option.some.inj h).symm

/-- The directory snapshot of spec section 8: two used `summer`
credentials and one active `winter` credential. -/
def demoSnapshot : List User :=
  [⟨"promo-ab12cd34-summer".data, activeStatus, 1073741824, 1073741824, some "u1".data⟩,
   ⟨"promo-ef56gh78-summer".data, "EXPIRED".data, 0, 1073741824, some "u2".data⟩,
   ⟨"promo-ij90kl12-winter".data, activeStatus, 10, 1073741824, some "u3".data⟩]

/-- Concrete witness: on the spec's example snapshot the `summer` entry of
the all-tags scan is `{total 2, active 0, used 2}` and the preview agrees. -/
theorem tag_stats_agree_with_preview_witness :
    lookupTag (getTagsWithStats demoSnapshot) "summer".data = some ⟨2, 0, 2⟩ ∧
    (⟨2, 0, 2⟩ : TagStats) = getTagPreviewStats demoSnapshot "summer".data :=
  ⟨by decide, tag_stats_agree_with_preview demoSnapshot "summer".data ⟨2, 0, 2⟩ (by decide)⟩

/- ### Bulk retirement (claims C5, C9) -/

/-- Result of `delete_used_subscriptions`: the returned
`(deleted_count, total_count)` pair, plus the trace of identifiers passed
to the external `delete_user` call, in loop order. -/
structure RetireResult where
  deletedCount : Nat
  totalCount : Nat
  deleteCalls : List Str
deriving DecidableEq

/-- The scan loop of `delete_used_subscriptions` (remnawave_service.py
lines 492-527).  `delOk id` tells whether the external delete call for
`id` succeeds; a failed delete is still a call (traced) but is not counted
(lines 515-520).  A used record without a uuid is skipped (lines 521-522);
a record of another tag or a non-matching name only passes by; a matching
record always counts toward `total_count` (line 501, line 524). -/
def retireAux (tag : Str) (delOk : Str → Bool) : List User → RetireResult
  | [] => ⟨0, 0, []⟩
  | u :: us =>
    match extractTag u.username with
    | some t =>
      if t = tag then
        if isUsed u then
          match u.uuid with
          | some id =>
            if delOk id then
              ⟨(retireAux tag delOk us).deletedCount + 1,
                (retireAux tag delOk us).totalCount + 1,
                id :: (retireAux tag delOk us).deleteCalls⟩
            else
              ⟨(retireAux tag delOk us).deletedCount,
                (retireAux tag delOk us).totalCount + 1,
                id :: (retireAux tag delOk us).deleteCalls⟩
          | none =>
            ⟨(retireAux tag delOk us).deletedCount,
              (retireAux tag delOk us).totalCount + 1,
              (retireAux tag delOk us).deleteCalls⟩
        else
          ⟨(retireAux tag delOk us).deletedCount,
            (retireAux tag delOk us).totalCount + 1,
            (retireAux tag delOk us).deleteCalls⟩
      else retireAux tag delOk us
    | none => retireAux tag delOk us

/-- Embedding of `delete_used_subscriptions` applied to a directory
snapshot, with external delete behaviour `delOk`. -/
def deleteUsedSubscriptions (users : List User) (tag : Str) (delOk : Str → Bool) :
    RetireResult :=
  retireAux tag delOk users

/-- The identifiers of the matching used credentials that have one, in
snapshot order: the exact sequence of external delete calls. -/
def traceOf (users : List User) (tag : Str) : List Str :=
  (users.filter fun u => matchesTagB u tag && isUsed u).filterMap User.uuid

/-- Closed form of the retirement loop: the delete calls are exactly the
identifiers of the matching used credentials, the deleted count is the
number of those calls that succeed, and the total is the number of
matching credentials. -/
theorem retire_spec : ∀ (users : List User) (tag : Str) (delOk : Str → Bool),
    deleteUsedSubscriptions users tag delOk =
      ⟨((traceOf users tag).filter delOk).length, taggedCount users tag,
        traceOf users tag⟩ := by
  intro users
  induction users with
  | nil => intro tag delOk; rfl
  | cons u us ih =>
    intro tag delOk
    simp only [deleteUsedSubscriptions] at ih ⊢
    cases hx : extractTag u.username with
    | none =>
      have hm : matchesTagB u tag = false := by simp [matchesTagB, hx]
      simp only [retireAux, hx]
      rw [ih, taggedCount_cons_of_not hm]
      simp [traceOf, List.filter_cons, hm]
    | some t =>
      by_cases htag : t = tag
      · subst htag
        have hm : matchesTagB u t = true := by simp [matchesTagB, hx]
        have htc : taggedCount (u :: us) t = taggedCount us t + 1 := by
          simp [taggedCount, List.filter_cons, hm]
        cases hu : isUsed u with
        | false =>
          simp only [retireAux, hx, if_pos rfl, hu, if_false, Bool.false_eq_true]
          rw [ih, htc]
          simp [traceOf, List.filter_cons, hm, hu]
        | true =>
          cases hid : u.uuid with
          | none =>
            simp only [retireAux, hx, if_pos rfl, hu, if_true, hid]
            rw [ih, htc]
            simp [traceOf, List.filter_cons, hm, hu, hid, List.filterMap_cons]
          | some id =>
            by_cases hdel : delOk id = true
            · simp only [retireAux, hx, if_pos rfl, hu, if_true, hid, hdel]
              rw [ih, htc]
              simp [traceOf, List.filter_cons, hm, hu, hid, List.filterMap_cons, hdel]
            · simp only [retireAux, hx, if_pos rfl, hu, if_true, hid,
                Bool.not_eq_true] at hdel ⊢
              rw [if_neg (by simp [hdel]), ih, htc]
              simp [traceOf, List.filter_cons, hm, hu, hid, List.filterMap_cons, hdel]
      · have hm : matchesTagB u tag = false := by
          simp only [matchesTagB, hx, decide_eq_false_iff_not]
          intro hcon
          exact htag (Option.some.inj hcon)
        simp only [retireAux, hx, if_neg htag]
        rw [ih, taggedCount_cons_of_not hm]
        simp [traceOf, List.filter_cons, hm]

/-- Four credentials of campaign `camp`: two used (both with identifiers)
and two active. -/
def demoRetireSnapshot : List User :=
  [⟨"promo-aaaa1111-camp".data, "EXPIRED".data, 0, 1073741824, some "id1".data⟩,
   ⟨"promo-bbbb2222-camp".data, activeStatus, 5, 1073741824, some "id2".data⟩,
   ⟨"promo-cccc3333-camp".data, activeStatus, 1073741824, 1073741824, some "id3".data⟩,
   ⟨"promo-dddd4444-camp".data, activeStatus, 6, 1073741824, some "id4".data⟩]

/-- C5: the external delete call receives exactly the identifiers of the
credentials whose extracted tag matches, that are classified used, and
that carry an identifier — never an active credential; when every delete
succeeds the deleted count is the number of those credentials and the
total is the number of matching credentials.  On a snapshot with 4 tagged
credentials, 2 used and 2 active, the result is `(2, 4)`. -/
theorem retire_deletes_exactly_used :
    (∀ (users : List User) (tag : Str) (delOk : Str → Bool),
      (deleteUsedSubscriptions users tag delOk).deleteCalls = traceOf users tag
      ∧ (deleteUsedSubscriptions users tag fun _ => true).deletedCount
          = (traceOf users tag).length
      ∧ (deleteUsedSubscriptions users tag delOk).totalCount = taggedCount users tag
      ∧ ∀ x ∈ (deleteUsedSubscriptions users tag delOk).deleteCalls,
          ∃ u ∈ users, u.uuid = some x ∧ extractTag u.username = some tag ∧
            isUsed u = true)
    ∧ deleteUsedSubscriptions demoRetireSnapshot "camp".data (fun _ => true) =
        ⟨2, 4, ["id1".data, "id3".data]⟩ := by
  refine ⟨?_, by decide⟩
  intro users tag delOk
  refine ⟨by rw [retire_spec], by rw [retire_spec]; simp, by rw [retire_spec], ?_⟩
  intro x hx
  rw [retire_spec] at hx
  simp only [traceOf] at hx
  obtain ⟨u, hu, huid⟩ := List.mem_filterMap.mp hx
  obtain ⟨humem, hpred⟩ := List.mem_filter.mp hu
  rw [Bool.and_eq_true] at hpred
  refine ⟨u, humem, huid, ?_, hpred.2⟩
  have := hpred.1
  simpa [matchesTagB] using this

/-- C9: if no credential's extracted tag equals the argument (including
the empty snapshot), retirement returns `(0, 0)` and the external delete
call is never invoked. -/
theorem retire_unknown_tag (users : List User) (tag : Str) (delOk : Str → Bool)
    (h : ∀ u ∈ users, extractTag u.username ≠ some tag) :
    deleteUsedSubscriptions users tag delOk = ⟨0, 0, []⟩ := by
  have hfil : ∀ (p : User → Bool), (∀ u ∈ users, matchesTagB u tag = false) →
      users.filter (fun u => matchesTagB u tag && p u) = [] := by
    intro p hall
    apply List.filter_eq_nil_iff.mpr
    intro u hu
    simp [hall u hu]
  have hall : ∀ u ∈ users, matchesTagB u tag = false := by
    intro u hu
    simp [matchesTagB]
    exact h u hu
  have htr : traceOf users tag = [] := by
    rw [traceOf, hfil isUsed hall]
    rfl
  have htc : taggedCount users tag = 0 := by
    rw [taggedCount]
    have : users.filter (fun u => matchesTagB u tag) = [] := by
      apply List.filter_eq_nil_iff.mpr
      intro u hu
      simp [hall u hu]
    rw [this]
    rfl
  rw [retire_spec, htr, htc]
  rfl

/-- Witness for the unknown-tag case: a snapshot of two credentials of
other campaigns yields `(0, 0)` with no delete call. -/
theorem retire_unknown_tag_witness :
    deleteUsedSubscriptions
      [⟨"promo-aaaa1111-camp".data, "EXPIRED".data, 0, 1073741824, some "id1".data⟩,
       ⟨"other-user".data, "EXPIRED".data, 0, 1073741824, some "id9".data⟩]
      "ghost".data (fun _ => true) = ⟨0, 0, []⟩ :=
  retire_unknown_tag _ _ _ (by decide)

/- ### Bulk provisioning (claims C4, C6, C7) -/

/-- Outcome of one external `create_user` attempt: the call raises, returns
a falsy response, or returns a created record from which an access link may
or may not be resolvable. -/
inductive AttemptResult where
  | raise
  | falsy
  | created (link : Option Str)
deriving DecidableEq

/-- One external `create_user` request as the service issues it: the
full-parameter call carries `traffic_limit_bytes` (line 111), the minimal
fallback call omits it (lines 128-132, modelled as `none`). -/
structure CreateRequest where
  username : Str
  trafficLimitBytes : Option Int
deriving DecidableEq

/-- Embedding of the GB-to-bytes conversion of `create_promo_users`
(remnawave_service.py lines 77-81): nonpositive input is coerced to the
1 GB minimum, otherwise multiply out. -/
def trafficLimitBytesOf (trafficLimitGb : Int) : Int :=
  if trafficLimitGb ≤ 0 then 1024 * 1024 * 1024
  else trafficLimitGb * 1024 * 1024 * 1024

/-- The placeholder entry appended when a user is created but no
subscription URL can be resolved (remnawave_service.py line 193). -/
def placeholderLink (username : Str) : Str :=
  "User created: ".data ++ username ++ " (no subscription URL)".data

/-- The single list entry appended for a successfully created user:
the resolved URL, or the placeholder. -/
def linkEntry (username : Str) : Option Str → List Str
  | some url => [url]
  | none => [placeholderLink username]

/-- One iteration of the creation loop (remnawave_service.py lines
88-206): issue the full-parameter create call; if it raises, retry once
with the minimal parameter set; if both raise, absorb the failure and
append nothing; a falsy response also appends nothing; a created record
appends exactly one entry.  Returns (appended entries, issued requests). -/
def createStep (username : Str) (bytes : Int) (beh : AttemptResult × AttemptResult) :
    List Str × List CreateRequest :=
  match beh.1 with
  | .created link => (linkEntry username link, [⟨username, some bytes⟩])
  | .falsy => ([], [⟨username, some bytes⟩])
  | .raise =>
    match beh.2 with
    | .created link =>
      (linkEntry username link, [⟨username, some bytes⟩, ⟨username, none⟩])
    | .falsy => ([], [⟨username, some bytes⟩, ⟨username, none⟩])
    | .raise => ([], [⟨username, some bytes⟩, ⟨username, none⟩])

/-- The `for i in range(count)` loop of `create_promo_users`: `suffixes i`
is the random suffix drawn at iteration `i`, `api i` the external
behaviour of that iteration's create attempts. -/
def createLoop (bytes : Int) (tag : Str) (suffixes : Nat → Str)
    (api : Nat → AttemptResult × AttemptResult) : Nat → Nat → List Str × List CreateRequest
  | _, 0 => ([], [])
  | i, n + 1 =>
    ((createStep (generateUsername (suffixes i) tag) bytes (api i)).1 ++
        (createLoop bytes tag suffixes api (i + 1) n).1,
      (createStep (generateUsername (suffixes i) tag) bytes (api i)).2 ++
        (createLoop bytes tag suffixes api (i + 1) n).2)

/-- What `create_promo_users` hands back: the subscription-link list and
the artifact URL (the returned pair), plus the trace of external create
requests issued on the way. -/
structure ProvisionOutput where
  links : List Str
  fileUrl : Str
  requests : List CreateRequest
deriving DecidableEq

/-- The `ValueError` message of the tag validation (remnawave_service.py
line 74). -/
def invalidTagMessage : Str :=
  "Invalid tag format. Use only latin characters, numbers, underscore and hyphen.".data

/-- Embedding of `create_promo_users` (remnawave_service.py lines 59-216):
validate the tag (raising on failure), convert the traffic limit, run the
per-credential loop with failure absorption, and return the links together
with the artifact URL produced by the (error-absorbing) file writer. -/
def createPromoUsers (tag : Str) (trafficLimitGb : Int) (count : Nat)
    (suffixes : Nat → Str) (api : Nat → AttemptResult × AttemptResult)
    (fileUrl : Str) : Except Str ProvisionOutput :=
  if validateTag tag then
    Except.ok
      ⟨(createLoop (trafficLimitBytesOf trafficLimitGb) tag suffixes api 0 count).1,
        fileUrl,
        (createLoop (trafficLimitBytesOf trafficLimitGb) tag suffixes api 0 count).2⟩
  else Except.error invalidTagMessage

theorem createStep_links_length (username : Str) (bytes : Int)
    (beh : AttemptResult × AttemptResult) :
    (createStep username bytes beh).1.length ≤ 1 := by
  rcases beh with ⟨a1, a2⟩
  cases a1 with
  | created link => cases link <;> simp [createStep, linkEntry]
  | falsy => simp [createStep]
  | raise =>
    cases a2 with
    | created link => cases link <;> simp [createStep, linkEntry]
    | falsy => simp [createStep]
    | raise => simp [createStep]

theorem createLoop_links_length (bytes : Int) (tag : Str) (suffixes : Nat → Str)
    (api : Nat → AttemptResult × AttemptResult) :
    ∀ n i, (createLoop bytes tag suffixes api i n).1.length ≤ n := by
  intro n
  induction n with
  | zero => intro i; simp [createLoop]
  | succ n ih =>
    intro i
    simp only [createLoop, List.length_append]
    have h1 := createStep_links_length (generateUsername (suffixes i) tag) bytes (api i)
    have h2 := ih (i + 1)
    omega

theorem createStep_requests (username : Str) (bytes : Int)
    (beh : AttemptResult × AttemptResult) :
    ∀ r ∈ (createStep username bytes beh).2,
      r.trafficLimitBytes = none ∨ r.trafficLimitBytes = some bytes := by
  rcases beh with ⟨a1, a2⟩
  intro r hr
  cases a1 with
  | created link =>
    simp [createStep] at hr
    subst hr
    simp
  | falsy =>
    simp [createStep] at hr
    subst hr
    simp
  | raise =>
    cases a2 <;>
      (simp [createStep] at hr
       rcases hr with rfl | rfl <;> simp)

theorem createLoop_requests (bytes : Int) (tag : Str) (suffixes : Nat → Str)
    (api : Nat → AttemptResult × AttemptResult) :
    ∀ n i r, r ∈ (createLoop bytes tag suffixes api i n).2 →
      r.trafficLimitBytes = none ∨ r.trafficLimitBytes = some bytes := by
  intro n
  induction n with
  | zero => intro i r hr; simp [createLoop] at hr
  | succ n ih =>
    intro i r hr
    simp only [createLoop, List.mem_append] at hr
    rcases hr with hr | hr
    · exact createStep_requests _ _ _ r hr
    · exact ih (i + 1) r hr

/-- C4: once tag validation passes, provisioning never raises; every
per-credential failure is absorbed and only shortens the link list, whose
length is at most `count`.  In particular, with `count = 5` and an
external API whose create calls fail outright on exactly 2 of the 5
iterations (and succeed with a resolvable link on the rest), the returned
list has length 3. -/
theorem provision_absorbs_failures :
    (∀ (tag : Str) (gb : Int) (count : Nat) (suffixes : Nat → Str)
        (api : Nat → AttemptResult × AttemptResult) (fileUrl : Str),
        validateTag tag = true →
        ∃ out, createPromoUsers tag gb count suffixes api fileUrl = Except.ok out ∧
          out.links.length ≤ count)
    ∧ ∃ out,
        createPromoUsers "spring".data 10 5 (fun _ => "ab12cd34".data)
            (fun i =>
              if i == 1 || i == 3 then (AttemptResult.raise, AttemptResult.raise)
              else (AttemptResult.created (some "https://example.com/sub".data),
                AttemptResult.raise))
            "files/spring.txt".data = Except.ok out ∧
          out.links.length = 3 := by
  constructor
  · intro tag gb count suffixes api fileUrl hv
    refine ⟨⟨(createLoop (trafficLimitBytesOf gb) tag suffixes api 0 count).1, fileUrl,
      (createLoop (trafficLimitBytesOf gb) tag suffixes api 0 count).2⟩, ?_, ?_⟩
    · rw [createPromoUsers, if_pos hv]
    · exact createLoop_links_length _ _ _ _ count 0
  · exact ⟨_, rfl, rfl⟩

/-- Witness discharging the validation hypothesis of the batch-absorption
law at a concrete call. -/
theorem provision_absorbs_failures_witness :
    ∃ out, createPromoUsers "x".data 1 2 (fun _ => "aaaaaaaa".data)
        (fun _ => (AttemptResult.falsy, AttemptResult.falsy)) "u".data = Except.ok out ∧
      out.links.length ≤ 2 :=
  provision_absorbs_failures.1 "x".data 1 2 (fun _ => "aaaaaaaa".data)
    (fun _ => (AttemptResult.falsy, AttemptResult.falsy)) "u".data (by decide)

/-- C6: a nonpositive `traffic_limit_gb` (in particular 0) yields a
requested quota of exactly 1073741824 bytes, a positive one exactly
`traffic_limit_gb * 1073741824`; the computed quota is never 0, and every
external create request that carries a quota carries exactly this value
(the minimal fallback request omits the field altogether). -/
theorem traffic_quota_correct :
    (∀ gb : Int, gb ≤ 0 → trafficLimitBytesOf gb = 1073741824)
    ∧ (∀ gb : Int, 0 < gb → trafficLimitBytesOf gb = gb * 1073741824)
    ∧ (∀ gb : Int, trafficLimitBytesOf gb ≠ 0)
    ∧ (∀ (tag : Str) (gb : Int) (count : Nat) (suffixes : Nat → Str)
        (api : Nat → AttemptResult × AttemptResult) (fileUrl : Str)
        (out : ProvisionOutput),
        createPromoUsers tag gb count suffixes api fileUrl = Except.ok out →
        ∀ r ∈ out.requests,
          r.trafficLimitBytes = none ∨
            r.trafficLimitBytes = some (trafficLimitBytesOf gb)) := by
  refine ⟨?_, ?_, ?_, ?_⟩
  · intro gb h
    rw [trafficLimitBytesOf, if_pos h]
    decide
  · intro gb h
    rw [trafficLimitBytesOf, if_neg (by omega)]
    ring
  · intro gb
    rw [trafficLimitBytesOf]
    by_cases h : gb ≤ 0
    · rw [if_pos h]
      norm_num
    · rw [if_neg h]
      have h1 : 0 < gb := by omega
      have hpos : 0 < gb * 1024 * 1024 * 1024 := by positivity
      exact ne_of_gt hpos
  · intro tag gb count suffixes api fileUrl out h r hr
    by_cases hv : validateTag tag = true
    · rw [createPromoUsers, if_pos hv] at h
      have hout := Except.ok.inj h
      rw [← hout] at hr
      exact createLoop_requests _ _ _ _ count 0 r hr
    · rw [createPromoUsers, if_neg hv] at h
      exact absurd h (by simp)

/-- Witness for the quota law: the coerced zero case and a positive case,
evaluated concretely. -/
theorem traffic_quota_correct_witness :
    trafficLimitBytesOf 0 = 1073741824 ∧ trafficLimitBytesOf 5 = 5368709120 := by
  constructor
  · exact traffic_quota_correct.1 0 (by decide)
  · rw [traffic_quota_correct.2.1 5 (by decide)]
    decide

/-- Outcome of the count-input step of the bot conversation. -/
inductive CountDecision where
  | reprompt
  | accept (count : Int)
deriving DecidableEq

/-- Embedding of the count validation of `handle_count_input`
(bot_handlers.py lines 259-291): a failed `int()` parse (`none`) or a
count outside `[1, MAX_SUBSCRIPTIONS_PER_REQUEST]` re-prompts (returns
`WAITING_COUNT`) and provisioning is not invoked; otherwise the count is
stored and the conversation proceeds toward the confirmation step, the
only path on which `create_promo_users` is later called (line 366). -/
def handleCountInput (parsed : Option Int) : CountDecision :=
  match parsed with
  | none => CountDecision.reprompt
  | some count =>
    if count < 1 ∨ (MAX_SUBSCRIPTIONS_PER_REQUEST : Int) < count then
      CountDecision.reprompt
    else CountDecision.accept count

/-- C7 counterexample: the provisioning service itself performs no count
validation.  Called directly with `count = 0` (outside `[1, 100]`) it
returns ok with an empty list instead of failing with a count-validation
error, and with `count = 101` it returns ok after issuing 101 external
create requests — so the claim, read of the service operation, is false. -/
theorem count_not_validated_in_service :
    createPromoUsers "x".data 1 0 (fun _ => "aaaaaaaa".data)
        (fun _ => (AttemptResult.created none, AttemptResult.raise)) [] =
      Except.ok ⟨[], [], []⟩
    ∧ (createPromoUsers "x".data 1 101 (fun _ => "aaaaaaaa".data)
        (fun _ => (AttemptResult.created none, AttemptResult.raise)) []).map
          (fun o => o.requests.length) = Except.ok 101 := by
  constructor
  · rfl
  · rfl

/-- C7 (amended): the count bound is enforced in the bot conversation
handler, not in the provisioning service: any count outside
`[1, MAX_SUBSCRIPTIONS_PER_REQUEST]` makes the handler re-prompt, so
provisioning is never invoked with such a count through the bot flow. -/
theorem count_validated_in_handler (c : Int)
    (h : c < 1 ∨ (MAX_SUBSCRIPTIONS_PER_REQUEST : Int) < c) :
    handleCountInput (some c) = CountDecision.reprompt := by
  simp only [handleCountInput]
  rw [if_pos h]

/-- Witness for the handler-side count validation at the concrete
out-of-range count 101. -/
theorem count_validated_in_handler_witness :
    handleCountInput (some 101) = CountDecision.reprompt :=
  count_validated_in_handler 101 (Or.inr (by decide))

/- ### Directory-fetch failure handling (claim C10) -/

/-- `get_tags_with_stats` (remnawave_service.py lines 419-470) with the
external list call made explicit: any exception from the fetch is caught
and turned into the empty list (lines 468-470). -/
def getTagsWithStatsApi (fetch : Except Str (List User)) : List (Str × TagStats) :=
  match fetch with
  | Except.error _ => []
  | Except.ok users => getTagsWithStats users

/-- `get_tag_preview_stats` (lines 533-574) with the external list call
made explicit: any exception yields the all-zero triple (lines 572-574). -/
def getTagPreviewStatsApi (fetch : Except Str (List User)) (tag : Str) : TagStats :=
  match fetch with
  | Except.error _ => ⟨0, 0, 0⟩
  | Except.ok users => getTagPreviewStats users tag

/-- `delete_used_subscriptions` (lines 472-531) with the external list
call made explicit: its `except` block re-raises (lines 529-531). -/
def deleteUsedSubscriptionsApi (fetch : Except Str (List User)) (tag : Str)
    (delOk : Str → Bool) : Except Str RetireResult :=
  match fetch with
  | Except.error e => Except.error e
  | Except.ok users => Except.ok (deleteUsedSubscriptions users tag delOk)

/-- C10: when the list-users call fails, the all-tags scan returns the
empty list and the preview returns all-zero counters — each
indistinguishable from the same scan over an empty directory — while bulk
retirement re-raises the same failure. -/
theorem api_failure_swallowed_in_scans (e : Str) (tag : Str) (delOk : Str → Bool) :
    getTagsWithStatsApi (Except.error e) = []
    ∧ getTagsWithStatsApi (Except.error e) = getTagsWithStatsApi (Except.ok [])
    ∧ getTagPreviewStatsApi (Except.error e) tag = ⟨0, 0, 0⟩
    ∧ getTagPreviewStatsApi (Except.error e) tag = getTagPreviewStatsApi (Except.ok []) tag
    ∧ deleteUsedSubscriptionsApi (Except.error e) tag delOk = Except.error e :=
  ⟨rfl, rfl, rfl, rfl, rfl⟩

/- ### Concrete witnesses for the remaining claim theorems -/

/-- A concrete credential with quota 5 and consumed 7 (over quota). -/
def demoClassifyUser : User :=
  ⟨"promo-aaaa1111-x".data, activeStatus, 7, 5, some "i".data⟩

/-- Witness instantiating the classification law at a concrete over-quota
credential. -/
theorem classify_used_iff_witness :
    (isUsed demoClassifyUser = true ↔
      (demoClassifyUser.status ≠ activeStatus ∨
        (0 < demoClassifyUser.trafficLimitBytes ∧
          demoClassifyUser.trafficLimitBytes ≤ demoClassifyUser.usedTrafficBytes)))
    ∧ statsIsActive demoClassifyUser = !isUsed demoClassifyUser
    ∧ isUsed { demoClassifyUser with status := activeStatus, trafficLimitBytes := 0 }
        = false :=
  classify_used_iff demoClassifyUser

/-- Witness instantiating the validation characterization at a concrete
tag. -/
theorem validate_tag_iff_witness :
    validateTag "ab-c_1".data = true ↔
      ("ab-c_1".data ≠ [] ∧ ∀ c ∈ "ab-c_1".data, isTagChar c) :=
  validate_tag_iff "ab-c_1".data

/-- Witness instantiating the retirement characterization on the concrete
four-credential snapshot. -/
theorem retire_deletes_exactly_used_witness :
    (deleteUsedSubscriptions demoRetireSnapshot "camp".data fun _ => true).deleteCalls
      = traceOf demoRetireSnapshot "camp".data :=
  (retire_deletes_exactly_used.1 demoRetireSnapshot "camp".data (fun _ => true)).1

/-- Witness instantiating the fetch-failure law at a concrete error. -/
theorem api_failure_swallowed_in_scans_witness :
    getTagsWithStatsApi (Except.error "boom".data) = []
    ∧ getTagsWithStatsApi (Except.error "boom".data) = getTagsWithStatsApi (Except.ok [])
    ∧ getTagPreviewStatsApi (Except.error "boom".data) "t".data = ⟨0, 0, 0⟩
    ∧ getTagPreviewStatsApi (Except.error "boom".data) "t".data
        = getTagPreviewStatsApi (Except.ok []) "t".data
    ∧ deleteUsedSubscriptionsApi (Except.error "boom".data) "t".data (fun _ => true)
        = Except.error "boom".data :=
  api_failure_swallowed_in_scans "boom".data "t".data (fun _ => true)

end PromoBot
